import Mathlib

/-!
Shallow embedding of the askbot-backend Express application.

The embedded code:

* `src/api/index.js` — the `/api/chat` handler (Gemini only, in-memory
  per-user conversation history trimmed to the last 20 turns) and the
  `/api/chat/vision` handler (multimodal branch when image files are
  attached).
* `src/unnamed/part_002` — the `/api/chat` handler with premium routing:
  DeepSeek for premium users (with an identity-pinning system turn),
  falling back to Gemini when the DeepSeek call throws; Gemini for free
  users.
* `src/index.js` (and its revisions `src/unnamed/part_000`,
  `src/unnamed/part_001`) — the `/generate` handler.

JavaScript request-body fields are modelled by `JValue` (the JSON
primitives: absent/undefined, null, booleans, numbers, strings); the
conversation store `conversationHistories` is a partial map from user id
to a list of turns (`none` = key absent, as in a fresh JS object).
Outbound provider calls are modelled by oracles
(`Except`-valued functions: `.ok text` = the call returned `text`,
`.error msg` = the call threw an error whose `.message` is `msg`), and
each handler also returns the trace of calls it made to each provider,
so that "provider X was never invoked" is the statement that the
corresponding trace is empty.
-/

namespace AskBot

/-- A conversation turn as stored in `conversationHistories[userId]`:
`{ role, content }`. -/
structure Turn where
  role : String
  content : String
  deriving DecidableEq, Repr

/-- A JavaScript value occupying a request-body field (JSON primitives;
`jundefined` models an absent field). -/
inductive JValue where
  | jundefined
  | jnull
  | jbool (b : Bool)
  | jnum (n : Int)
  | jstr (s : String)
  deriving DecidableEq, Repr

/-- JavaScript truthiness: `undefined`, `null`, `false`, `0` and `""` are
falsy, everything else modelled here is truthy. -/
def JValue.truthy : JValue → Bool
  | .jundefined => false
  | .jnull => false
  | .jbool b => b
  | .jnum n => n != 0
  | .jstr s => s != ""

/-- `typeof v === 'string'`. -/
def JValue.isString : JValue → Bool
  | .jstr _ => true
  | _ => false

/-- JavaScript string coercion as performed by `+` and template literals
(`String(undefined) = "undefined"`, etc.). -/
def JValue.coerceString : JValue → String
  | .jundefined => "undefined"
  | .jnull => "null"
  | .jbool b => if b then "true" else "false"
  | .jnum n => toString n
  | .jstr s => s

/-- The in-memory store `conversationHistories`: a JS object mapping user
ids to turn lists; `none` models an absent key. -/
def Store : Type := String → Option (List Turn)

/-- A fresh store (`const conversationHistories = {}`). -/
def emptyStore : Store := fun _ => none

/-- `conversationHistories[userId] = h` (in-place mutation of one key). -/
def Store.set (store : Store) (uid : String) (h : List Turn) : Store :=
  fun k => if k = uid then some h else store k

/-- `req.headers['x-user-id'] || 'default'` — an absent or empty header
falls back to the shared `'default'` bucket. -/
def userIdOf (header : Option String) : String :=
  match header with
  | some s => if s = "" then "default" else s
  | none => "default"

/-- `if (history.length > 20) history = history.slice(-20)` — keep the
last 20 turns. -/
def trim20 (h : List Turn) : List Turn :=
  if h.length > 20 then h.drop (h.length - 20) else h

/-- One user-turn append as the `/api/chat` handler performs it:
`push` the turn, then trim to the window bound. -/
def appendTurn (h : List Turn) (t : Turn) : List Turn :=
  trim20 (h ++ [t])

/-- A sequence of appends through `appendTurn`. -/
def appendAll (h : List Turn) (ts : List Turn) : List Turn :=
  ts.foldl appendTurn h

/-- Prompt assembly: `history.map(m => role + ": " + content).join("\n")`. -/
def promptOf (h : List Turn) : String :=
  String.intercalate "\n" (h.map fun m => m.role ++ ": " ++ m.content)

/-- The history an `/api/chat` request leaves right after the user-turn
push and trim (before any assistant turn is recorded). -/
def histUser (store : Store) (uid : String) (s : String) : List Turn :=
  appendTurn ((store uid).getD []) ⟨"user", s⟩

/-- An HTTP response body: `{ reply }` on success, `{ error }` otherwise
(the auxiliary `details` field of the 500 bodies is not modelled). -/
inductive Body where
  | reply (text : String)
  | error (msg : String)
  deriving DecidableEq, Repr

/-- An HTTP response: status code and JSON body. -/
structure Response where
  status : Nat
  body : Body
  deriving DecidableEq, Repr

/-- The request body and header consumed by the `/api/chat` handlers. -/
structure ChatRequest where
  xUserId : Option String
  message : JValue
  isPremium : JValue

/-- Result of one `/api/chat` request (`src/api/index.js`): the response,
the store after the request, and the prompts sent to Gemini. -/
structure ChatOutcome where
  response : Response
  store : Store
  gmCalls : List String

/-- The `/api/chat` handler of `src/api/index.js` (lines 72–145).
`cfg` is whether `genAI` was initialised (an `API_KEY` was present);
`gemini` is the oracle for `model.generateContent`. -/
def apiChat (cfg : Bool) (gemini : String → Except String String)
    (store : Store) (req : ChatRequest) : ChatOutcome :=
  if !cfg then
    ⟨⟨500, .error "API_KEY not configured. Please set API_KEY environment variable."⟩,
      store, []⟩
  else
    let uid := userIdOf req.xUserId
    let h0 := (store uid).getD []
    let store1 := store.set uid h0
    if !(req.message.truthy && req.message.isString) then
      ⟨⟨400, .error "\x27message\x27 must be a string"⟩, store1, []⟩
    else
      let msg := req.message.coerceString
      let h2 := appendTurn h0 ⟨"user", msg⟩
      let store2 := store1.set uid h2
      let prompt := promptOf h2
      match gemini prompt with
      | .ok text =>
        ⟨⟨200, .reply text⟩, store2.set uid (h2 ++ [⟨"assistant", text⟩]), [prompt]⟩
      | .error e =>
        ⟨⟨500, .error ("Backend error: " ++ e)⟩, store2, [prompt]⟩

/-- A sequence of `/api/chat` requests against one process (threading the
shared `conversationHistories`). -/
def processChats (cfg : Bool) (gemini : String → Except String String)
    (store : Store) (reqs : List ChatRequest) : Store :=
  reqs.foldl (fun st r => (apiChat cfg gemini st r).store) store

/-- The identity-pinning system turn prepended to every DeepSeek call
(`src/unnamed/part_002`, lines 124–129). -/
def identityPin : Turn :=
  ⟨"system",
    "You are AskBot AI powered by DeepSeek. You must NEVER identify as GPT, Claude, Gemini, or any other AI. When asked who you are, always respond that you are AskBot powered by DeepSeek AI. You are helpful and knowledgeable."⟩

/-- Role normalisation applied when copying history into the DeepSeek
message list: `msg.role === 'user' ? 'user' : 'assistant'`. -/
def normalizeTurn (t : Turn) : Turn :=
  ⟨if t.role = "user" then "user" else "assistant", t.content⟩

/-- The message list sent to DeepSeek: the identity-pinning system turn
followed by the history with normalised roles
(`src/unnamed/part_002`, lines 124–137). -/
def deepseekMessages (h : List Turn) : List Turn :=
  identityPin :: h.map normalizeTurn

/-- Result of one premium-routing `/api/chat` request
(`src/unnamed/part_002`): the response, the store after the request,
and the call traces of both providers. -/
structure PremiumOutcome where
  response : Response
  store : Store
  dsCalls : List (List Turn)
  gmCalls : List String

/-- The `/api/chat` handler of `src/unnamed/part_002` (lines 71–206).
`cfg` is whether `genAI` was initialised; `dsKey` is whether
`DEEPSEEK_API_KEY` is set (if not, the premium branch throws before
calling DeepSeek and the catch falls back to Gemini); `deepseek` and
`gemini` are the provider oracles. -/
def premiumChat (cfg dsKey : Bool)
    (deepseek : List Turn → Except String String)
    (gemini : String → Except String String)
    (store : Store) (req : ChatRequest) : PremiumOutcome :=
  if !cfg then
    ⟨⟨500, .error "API_KEY not configured. Please set API_KEY environment variable."⟩,
      store, [], []⟩
  else
    let uid := userIdOf req.xUserId
    let h0 := (store uid).getD []
    let store1 := store.set uid h0
    if !(req.message.truthy && req.message.isString) then
      ⟨⟨400, .error "\x27message\x27 must be a string"⟩, store1, [], []⟩
    else
      let msg := req.message.coerceString
      let h2 := appendTurn h0 ⟨"user", msg⟩
      let store2 := store1.set uid h2
      if req.isPremium.truthy then
        -- inner try/catch: any DeepSeek failure falls back to Gemini
        if !dsKey then
          -- `throw new Error('DEEPSEEK_API_KEY not configured ...')`
          -- caught by the deepseekError catch; DeepSeek itself not called
          let prompt := promptOf h2
          match gemini prompt with
          | .ok text =>
            ⟨⟨200, .reply text⟩, store2.set uid (h2 ++ [⟨"assistant", text⟩]),
              [], [prompt]⟩
          | .error e =>
            ⟨⟨500, .error ("Backend error: " ++ e)⟩, store2, [], [prompt]⟩
        else
          match deepseek (deepseekMessages h2) with
          | .ok text =>
            ⟨⟨200, .reply text⟩, store2.set uid (h2 ++ [⟨"assistant", text⟩]),
              [deepseekMessages h2], []⟩
          | .error _ =>
            -- fall back to Gemini with the flattened history (no system turn)
            let prompt := promptOf h2
            match gemini prompt with
            | .ok text =>
              ⟨⟨200, .reply text⟩, store2.set uid (h2 ++ [⟨"assistant", text⟩]),
                [deepseekMessages h2], [prompt]⟩
            | .error e =>
              ⟨⟨500, .error ("Backend error: " ++ e)⟩, store2,
                [deepseekMessages h2], [prompt]⟩
      else
        let prompt := promptOf h2
        match gemini prompt with
        | .ok text =>
          ⟨⟨200, .reply text⟩, store2.set uid (h2 ++ [⟨"assistant", text⟩]),
            [], [prompt]⟩
        | .error e =>
          ⟨⟨500, .error ("Backend error: " ++ e)⟩, store2, [], [prompt]⟩

/-- A file attachment in a `/api/chat/vision` request body:
`{ type, data }` with base64 (possibly data-URL) payload. -/
structure VFile where
  type : String
  data : String
  deriving DecidableEq, Repr

/-- The request consumed by `/api/chat/vision`; `files : none` models an
absent `files` field. -/
structure VisionRequest where
  xUserId : Option String
  message : JValue
  isPremium : JValue
  files : Option (List VFile)

/-- One element of the multimodal content array sent to the vision
model. -/
inductive Part where
  | text (s : String)
  | inlineData (mimeType : String) (data : String)
  deriving DecidableEq, Repr

/-- `s.startsWith(p)` (JS `String.prototype.startsWith`), modelled on the
character list. -/
def startsWithStr (s p : String) : Bool :=
  p.toList.isPrefixOf s.toList

/-- `file.data.split(',')[1] || file.data` — strip a data-URL prefix,
keeping the whole string when there is no (nonempty) second segment. -/
def base64Of (s : String) : String :=
  match (s.splitOn ",")[1]? with
  | some p => if p = "" then s else p
  | none => s

/-- The multimodal content array (`src/api/index.js`, lines 184–203): a
text part when `message && message.trim()` is truthy, then one
inline-data part per image file. Only reached when `message` is not a
truthy non-string (that case throws at `message.trim()`). -/
def visionParts (message : JValue) (files : List VFile) : List Part :=
  (match message with
    | .jstr s => if s != "" && s.trim != "" then [Part.text s] else []
    | _ => []) ++
  (files.filter (fun f => startsWithStr f.type "image/")).map
    (fun f => Part.inlineData f.type (base64Of f.data))

/-- Result of one `/api/chat/vision` request: response, store, and the
call traces of the vision model and of the text model. -/
structure VisionOutcome where
  response : Response
  store : Store
  visionCalls : List (List Part)
  gmCalls : List String

/-- The `/api/chat/vision` handler of `src/api/index.js` (lines
148–268). In the image branch the user turn and the assistant turn are
pushed first and the trim runs after both; in the text branch the trim
runs only after the user push, as in `/api/chat`. A truthy non-string
`message` in the image branch raises `TypeError: message.trim is not a
function`, which the outer catch converts to a 500. -/
def visionChat (cfg : Bool)
    (geminiVision : List Part → Except String String)
    (gemini : String → Except String String)
    (store : Store) (req : VisionRequest) : VisionOutcome :=
  if !cfg then
    ⟨⟨500, .error "API_KEY not configured. Please set API_KEY environment variable."⟩,
      store, [], []⟩
  else
    let uid := userIdOf req.xUserId
    let h0 := (store uid).getD []
    let store1 := store.set uid h0
    let files := req.files.getD []
    let hasImages := req.files.isSome && files.any (fun f => startsWithStr f.type "image/")
    if hasImages then
      if req.message.truthy && !req.message.isString then
        ⟨⟨500, .error "Backend error: message.trim is not a function"⟩, store1, [], []⟩
      else
        let parts := visionParts req.message files
        match geminiVision parts with
        | .error e =>
          ⟨⟨500, .error ("Backend error: " ++ e)⟩, store1, [parts], []⟩
        | .ok text =>
          let userContent := req.message.coerceString ++
            (if files.length > 0 then
              " [with " ++ toString files.length ++ " file(s)]" else "")
          let h2 := trim20 (h0 ++ [⟨"user", userContent⟩, ⟨"assistant", text⟩])
          ⟨⟨200, .reply text⟩, store1.set uid h2, [parts], []⟩
    else
      if !(req.message.truthy && req.message.isString) then
        ⟨⟨400, .error "\x27message\x27 must be a string"⟩, store1, [], []⟩
      else
        let msg := req.message.coerceString
        let h2 := appendTurn h0 ⟨"user", msg⟩
        let store2 := store1.set uid h2
        let prompt := promptOf h2
        match gemini prompt with
        | .ok text =>
          ⟨⟨200, .reply text⟩, store2.set uid (h2 ++ [⟨"assistant", text⟩]),
            [], [prompt]⟩
        | .error e =>
          ⟨⟨500, .error ("Backend error: " ++ e)⟩, store2, [], [prompt]⟩

/-- One element of the `messages` array of a `/generate` body, seen
through the two properties the handler reads (`m.role`, `m.content`).
An element that is not an object simply has both fields undefined. -/
structure JMsg where
  role : JValue
  content : JValue
  deriving DecidableEq, Repr

/-- The `messages` field of a `/generate` body: either an array of
elements or any non-array value (the exact split `Array.isArray`
makes). -/
inductive MessagesField where
  | notArray (v : JValue)
  | array (elems : List JMsg)

/-- Result of one `/generate` request: the response and the prompts sent
to Gemini. -/
structure GenOutcome where
  response : Response
  gmCalls : List String

/-- The `/generate` handler of `src/index.js` (lines 58–83; identical in
`src/unnamed/part_000` and `src/unnamed/part_001`). In these revisions
the process exits at startup when `API_KEY` is absent, so the client is
always configured. -/
def generate (gemini : String → Except String String)
    (messages : MessagesField) : GenOutcome :=
  match messages with
  | .notArray _ =>
    ⟨⟨400, .error "\x27messages\x27 must be an array of objects [\x7brole, content\x7d]"⟩, []⟩
  | .array elems =>
    let prompt := String.intercalate "\n"
      (elems.map fun m => m.role.coerceString ++ ": " ++ m.content.coerceString)
    match gemini prompt with
    | .ok text => ⟨⟨200, .reply text⟩, [prompt]⟩
    | .error e =>
      ⟨⟨500, .error ("Gemini API failed: " ++ (if e = "" then "Unknown error" else e))⟩,
        [prompt]⟩

/-! ## Helper lemmas about the trim window -/

theorem trim20_eq_drop (h : List Turn) : trim20 h = h.drop (h.length - 20) := by
  unfold trim20
  split
  · rfl
  · next hle =>
    have h0 : h.length - 20 = 0 := by omega
    rw [h0, List.drop_zero]

theorem trim20_length (h : List Turn) : (trim20 h).length = min h.length 20 := by
  rw [trim20_eq_drop, List.length_drop]
  omega

theorem appendTurn_length_le (h : List Turn) (t : Turn) :
    (appendTurn h t).length ≤ 20 := by
  unfold appendTurn
  rw [trim20_length]
  exact Nat.min_le_right _ _

theorem mem_trim20 {t : Turn} {h : List Turn} (ht : t ∈ trim20 h) : t ∈ h := by
  unfold trim20 at ht
  split at ht
  · exact List.mem_of_mem_drop ht
  · exact ht

/-! ## C5 -/

/-- The 26 turns of the worked example: `{user, "hi"}` followed by 25
further user turns. -/
def c5turns : List Turn :=
  ⟨"user", "hi"⟩ :: (List.range 25).map fun i => ⟨"user", "m" ++ toString (i + 2)⟩

set_option maxRecDepth 8000 in
/-- C5: starting from an empty history, appending one turn yields exactly
that turn; after 26 appends (one at a time, each trimming to the window),
the final history has length 20, equals the 20 most recent turns, and its
first element is the turn at index 6 (0-based) of the 26 appended. -/
theorem c5_worked_example :
    appendTurn [] ⟨"user", "hi"⟩ = [⟨"user", "hi"⟩] ∧
    c5turns.length = 26 ∧
    (appendAll [] c5turns).length = 20 ∧
    (appendAll [] c5turns).head? = c5turns[6]? ∧
    appendAll [] c5turns = c5turns.drop 6 := by decide

/-! ## C7 -/

/-- C7: a `/generate` request whose `messages` field is not an array gets
status 400 with the fixed error body, and no provider call is made
(empty Gemini call trace). -/
theorem c7_generate_not_array (gemini : String → Except String String) (v : JValue) :
    generate gemini (MessagesField.notArray v) =
      ⟨⟨400, Body.error "\x27messages\x27 must be an array of objects [\x7brole, content\x7d]"⟩,
        []⟩ :=
  rfl

/-! ## C4 -/

/-- C4: a request whose `isPremium` field is falsy (absent, false, etc.)
never invokes DeepSeek — the DeepSeek call trace is empty on every
non-premium path of the premium-routing handler. -/
theorem c4_nonpremium_never_deepseek (cfg dsKey : Bool)
    (deepseek : List Turn → Except String String)
    (gemini : String → Except String String)
    (store : Store) (req : ChatRequest)
    (hprem : req.isPremium.truthy = false) :
    (premiumChat cfg dsKey deepseek gemini store req).dsCalls = [] := by
  unfold premiumChat
  cases cfg with
  | false => rfl
  | true =>
    simp only [Bool.not_true, Bool.false_eq_true, if_false]
    split
    · rfl
    · simp only [hprem, Bool.false_eq_true, if_false]
      split <;> rfl

theorem c4_witness :
    (premiumChat true true (fun _ => Except.ok "d") (fun _ => Except.ok "g")
      emptyStore ⟨none, JValue.jstr "hi", JValue.jundefined⟩).dsCalls = [] :=
  c4_nonpremium_never_deepseek true true _ _ emptyStore _ rfl

/-! ## C9 -/

theorem apiChat_store_other (cfg : Bool) (gemini : String → Except String String)
    (store : Store) (req : ChatRequest) (v : String)
    (hv : v ≠ userIdOf req.xUserId) :
    (apiChat cfg gemini store req).store v = store v := by
  unfold apiChat
  cases cfg with
  | false => rfl
  | true =>
    simp only [Bool.not_true, Bool.false_eq_true, if_false]
    split
    · simp [Store.set, hv]
    · split <;> simp [Store.set, hv]

/-- C9: any sequence of `/api/chat` requests keyed to one user identifier
leaves every other identifier's history untouched. -/
theorem c9_distinct_users_independent (cfg : Bool)
    (gemini : String → Except String String) (store : Store)
    (reqs : List ChatRequest) (u v : String) (hne : v ≠ u)
    (hkeys : ∀ r ∈ reqs, userIdOf r.xUserId = u) :
    processChats cfg gemini store reqs v = store v := by
  induction reqs generalizing store with
  | nil => rfl
  | cons r rs ih =>
    have hr : userIdOf r.xUserId = u := hkeys r (List.mem_cons_self r rs)
    have hstep : (apiChat cfg gemini store r).store v = store v :=
      apiChat_store_other cfg gemini store r v (by rw [hr]; exact hne)
    have htail := ih ((apiChat cfg gemini store r).store)
      (fun r' hr' => hkeys r' (List.mem_cons_of_mem r hr'))
    calc processChats cfg gemini store (r :: rs) v
        = processChats cfg gemini ((apiChat cfg gemini store r).store) rs v := rfl
      _ = (apiChat cfg gemini store r).store v := htail
      _ = store v := hstep

theorem c9_witness :
    processChats true (fun _ => Except.ok "a") emptyStore
      [⟨none, JValue.jstr "hi", JValue.jundefined⟩] "bob" = none := by
  have h := c9_distinct_users_independent true (fun _ => Except.ok "a") emptyStore
    [⟨none, JValue.jstr "hi", JValue.jundefined⟩] "default" "bob"
    (by decide) (by intro r hr; simp at hr; rw [hr]; rfl)
  exact h

/-! ## C1 -/

theorem store_set_bound (store : Store) (uid : String) (hist : List Turn)
    (hinv : ∀ k h, store k = some h → h.length ≤ 21)
    (hlen : hist.length ≤ 21) :
    ∀ k h, (store.set uid hist) k = some h → h.length ≤ 21 := by
  intro k h hk
  unfold Store.set at hk
  split at hk
  · cases hk
    exact hlen
  · exact hinv k h hk

theorem getD_length_le (store : Store) (uid : String)
    (hinv : ∀ k h, store k = some h → h.length ≤ 21) :
    ((store uid).getD []).length ≤ 21 := by
  cases hu : store uid with
  | none => simp
  | some h => simpa using hinv uid h hu

theorem apiChat_store_bound (cfg : Bool) (gemini : String → Except String String)
    (store : Store) (req : ChatRequest)
    (hinv : ∀ k h, store k = some h → h.length ≤ 21) :
    ∀ k h, (apiChat cfg gemini store req).store k = some h → h.length ≤ 21 := by
  unfold apiChat
  cases cfg with
  | false => exact hinv
  | true =>
    simp only [Bool.not_true, Bool.false_eq_true, if_false]
    split
    · exact store_set_bound _ _ _ hinv (getD_length_le store _ hinv)
    · have hbase := store_set_bound store (userIdOf req.xUserId)
        ((store (userIdOf req.xUserId)).getD []) hinv
        (getD_length_le store _ hinv)
      split
      · next text _ =>
        refine store_set_bound _ _ _ (store_set_bound _ _ _ hbase ?_) ?_
        · exact Nat.le_trans (appendTurn_length_le _ _) (by omega)
        · rw [List.length_append, List.length_singleton]
          have := appendTurn_length_le ((store (userIdOf req.xUserId)).getD [])
            (⟨"user", req.message.coerceString⟩ : Turn)
          omega
      · exact store_set_bound _ _ _ hbase
          (Nat.le_trans (appendTurn_length_le _ _) (by omega))

/-- C1 (amended): across any sequence of `/api/chat` requests the stored
history never exceeds 21 turns — the user-turn append trims to 20, but
the assistant turn pushed afterwards is not trimmed, so a history can
momentarily hold 21 turns — and trimming always evicts from the front
(FIFO): `trim20 h` is the suffix `h.drop (h.length - 20)`. -/
theorem c1_window_bound_amended (cfg : Bool)
    (gemini : String → Except String String) (store : Store)
    (reqs : List ChatRequest)
    (hinv : ∀ k h, store k = some h → h.length ≤ 21) :
    (∀ k h, processChats cfg gemini store reqs k = some h → h.length ≤ 21) ∧
    (∀ h : List Turn, trim20 h = h.drop (h.length - 20)) := by
  refine ⟨?_, trim20_eq_drop⟩
  induction reqs generalizing store with
  | nil => exact hinv
  | cons r rs ih =>
    exact ih ((apiChat cfg gemini store r).store)
      (apiChat_store_bound cfg gemini store r hinv)

theorem c1_window_bound_amended_witness :
    ∃ h, processChats true (fun _ => Except.ok "a") emptyStore
      [⟨none, JValue.jstr "hi", JValue.jundefined⟩] "default" = some h ∧
      h.length ≤ 21 := by
  have hmain := (c1_window_bound_amended true (fun _ => Except.ok "a") emptyStore
    [⟨none, JValue.jstr "hi", JValue.jundefined⟩]
    (fun _ _ hk => nomatch hk)).1
  exact ⟨[⟨"user", "hi"⟩, ⟨"assistant", "a"⟩], by decide,
    hmain "default" _ (by decide)⟩

/-- A premium-free request with message `"u"`, no user header. -/
def c1req : ChatRequest := ⟨none, JValue.jstr "u", JValue.jundefined⟩

set_option maxRecDepth 16000 in
/-- C1 (counterexample): eleven consecutive successful `/api/chat`
requests leave the `default` history holding 21 turns — more than the
claimed bound of 20 — because the assistant turn appended after the trim
is itself never trimmed. -/
theorem c1_window_bound_counterexample :
    20 < ((processChats true (fun _ => Except.ok "a") emptyStore
      (List.replicate 11 c1req)) "default" |>.getD []).length := by decide

/-! ## C8 -/

/-- C8: with the provider client configured, `/api/chat` answers 400
exactly when `message` is absent, not a string, or the empty string; and
whenever it answers 400 the store is unchanged apart from the lazy
creation of the (possibly already present) user's history. -/
theorem c8_invalid_message_iff (gemini : String → Except String String)
    (store : Store) (req : ChatRequest) :
    ((apiChat true gemini store req).response.status = 400 ↔
      (req.message = JValue.jundefined ∨ req.message.isString = false ∨
        req.message = JValue.jstr "")) ∧
    ((apiChat true gemini store req).response.status = 400 →
      (apiChat true gemini store req).store =
        store.set (userIdOf req.xUserId) ((store (userIdOf req.xUserId)).getD [])) := by
  cases hm : req.message with
  | jundefined => simp [apiChat, hm, JValue.truthy, JValue.isString]
  | jnull => simp [apiChat, hm, JValue.truthy, JValue.isString]
  | jbool b => simp [apiChat, hm, JValue.truthy, JValue.isString]
  | jnum n => simp [apiChat, hm, JValue.truthy, JValue.isString]
  | jstr s =>
    by_cases hs : s = ""
    · subst hs
      simp [apiChat, hm, JValue.truthy, JValue.isString]
    · have htru : (JValue.jstr s).truthy = true := by
        simpa [JValue.truthy] using hs
      have hstr : (JValue.jstr s).isString = true := rfl
      cases hg : gemini (promptOf (appendTurn ((store (userIdOf req.xUserId)).getD [])
          ⟨"user", (JValue.jstr s).coerceString⟩)) with
      | ok t => simp [apiChat, hm, htru, hstr, hg, hs]
      | error e => simp [apiChat, hm, htru, hstr, hg, hs]

theorem c8_invalid_message_iff_witness :
    (apiChat true (fun _ => Except.ok "a") emptyStore
      ⟨none, JValue.jundefined, JValue.jundefined⟩).response.status = 400 ∧
    (apiChat true (fun _ => Except.ok "a") emptyStore
      ⟨none, JValue.jundefined, JValue.jundefined⟩).store =
      emptyStore.set "default" [] := by
  have h := c8_invalid_message_iff (fun _ => Except.ok "a") emptyStore
    ⟨none, JValue.jundefined, JValue.jundefined⟩
  have h4 := h.1.mpr (Or.inl rfl)
  exact ⟨h4, h.2 h4⟩

/-! ## C2 -/

/-- C2: a premium request on which the DeepSeek call fails and the Gemini
fallback also fails returns 500 with the upstream error message, and the
user's history holds the freshly appended user turn with no assistant
turn. -/
theorem c2_premium_double_failure
    (deepseek : List Turn → Except String String)
    (gemini : String → Except String String)
    (store : Store) (req : ChatRequest) (s e1 e2 : String)
    (hmsg : req.message = JValue.jstr s) (hs : s ≠ "")
    (hprem : req.isPremium.truthy = true)
    (hds : deepseek (deepseekMessages (histUser store (userIdOf req.xUserId) s)) =
      Except.error e1)
    (hgm : gemini (promptOf (histUser store (userIdOf req.xUserId) s)) =
      Except.error e2) :
    (premiumChat true true deepseek gemini store req).response =
      ⟨500, Body.error ("Backend error: " ++ e2)⟩ ∧
    (premiumChat true true deepseek gemini store req).store (userIdOf req.xUserId) =
      some (histUser store (userIdOf req.xUserId) s) := by
  have htru : (JValue.jstr s).truthy = true := by
    simpa [JValue.truthy] using hs
  have hstr : (JValue.jstr s).isString = true := rfl
  simp only [histUser] at hds hgm
  simp [premiumChat, hmsg, hprem, htru, hstr, JValue.coerceString, hds, hgm,
    histUser, Store.set]

theorem c2_premium_double_failure_witness :
    (premiumChat true true (fun _ => Except.error "ds down")
      (fun _ => Except.error "gm down") emptyStore
      ⟨none, JValue.jstr "hi", JValue.jbool true⟩).response =
      ⟨500, Body.error "Backend error: gm down"⟩ ∧
    (premiumChat true true (fun _ => Except.error "ds down")
      (fun _ => Except.error "gm down") emptyStore
      ⟨none, JValue.jstr "hi", JValue.jbool true⟩).store "default" =
      some [⟨"user", "hi"⟩] := by
  have h := c2_premium_double_failure (fun _ => Except.error "ds down")
    (fun _ => Except.error "gm down") emptyStore
    ⟨none, JValue.jstr "hi", JValue.jbool true⟩ "hi" "ds down" "gm down"
    rfl (by decide) rfl rfl rfl
  exact ⟨h.1, h.2⟩

/-! ## C3 -/

/-- C3: a premium request on which the DeepSeek call throws falls back
exactly once to Gemini (one DeepSeek call, one Gemini call) and, the
Gemini call succeeding, returns 200 with Gemini's text as the reply. -/
theorem c3_premium_fallback_once
    (deepseek : List Turn → Except String String)
    (gemini : String → Except String String)
    (store : Store) (req : ChatRequest) (s e t : String)
    (hmsg : req.message = JValue.jstr s) (hs : s ≠ "")
    (hprem : req.isPremium.truthy = true)
    (hds : deepseek (deepseekMessages (histUser store (userIdOf req.xUserId) s)) =
      Except.error e)
    (hgm : gemini (promptOf (histUser store (userIdOf req.xUserId) s)) =
      Except.ok t) :
    (premiumChat true true deepseek gemini store req).response =
      ⟨200, Body.reply t⟩ ∧
    (premiumChat true true deepseek gemini store req).dsCalls =
      [deepseekMessages (histUser store (userIdOf req.xUserId) s)] ∧
    (premiumChat true true deepseek gemini store req).gmCalls =
      [promptOf (histUser store (userIdOf req.xUserId) s)] := by
  have htru : (JValue.jstr s).truthy = true := by
    simpa [JValue.truthy] using hs
  have hstr : (JValue.jstr s).isString = true := rfl
  simp only [histUser] at hds hgm
  simp [premiumChat, hmsg, hprem, htru, hstr, JValue.coerceString, hds, hgm,
    histUser]

theorem c3_premium_fallback_once_witness :
    (premiumChat true true (fun _ => Except.error "ds down")
      (fun _ => Except.ok "gm text") emptyStore
      ⟨none, JValue.jstr "hi", JValue.jbool true⟩).response =
      ⟨200, Body.reply "gm text"⟩ ∧
    (premiumChat true true (fun _ => Except.error "ds down")
      (fun _ => Except.ok "gm text") emptyStore
      ⟨none, JValue.jstr "hi", JValue.jbool true⟩).dsCalls.length = 1 ∧
    (premiumChat true true (fun _ => Except.error "ds down")
      (fun _ => Except.ok "gm text") emptyStore
      ⟨none, JValue.jstr "hi", JValue.jbool true⟩).gmCalls.length = 1 := by
  have h := c3_premium_fallback_once (fun _ => Except.error "ds down")
    (fun _ => Except.ok "gm text") emptyStore
    ⟨none, JValue.jstr "hi", JValue.jbool true⟩ "hi" "ds down" "gm text"
    rfl (by decide) rfl rfl rfl
  exact ⟨h.1, by rw [h.2.1]; rfl, by rw [h.2.2]; rfl⟩

/-! ## C6 -/

theorem normalizeTurn_map_id (h : List Turn)
    (hr : ∀ t ∈ h, t.role = "user" ∨ t.role = "assistant") :
    h.map normalizeTurn = h := by
  induction h with
  | nil => rfl
  | cons t ts ih =>
    have ht := hr t (List.mem_cons_self t ts)
    have hts := ih (fun t' ht' => hr t' (List.mem_cons_of_mem t ht'))
    obtain ⟨r, c⟩ := t
    simp only [List.map_cons, hts, List.cons.injEq, and_true]
    rcases ht with ht | ht <;>
      simp_all [normalizeTurn]

/-- C6: on every premium request (valid message) the message list sent
to DeepSeek is exactly the identity-pinning system turn followed by the
trimmed history in insertion order (given that the stored history holds
only user/assistant turns, which is all this handler ever writes); and
whenever the DeepSeek call fails, the Gemini fallback prompt is built
from that same history alone, with no identity-pinning turn. -/
theorem c6_provider_payloads
    (deepseek : List Turn → Except String String)
    (gemini : String → Except String String)
    (store : Store) (req : ChatRequest) (s : String)
    (hmsg : req.message = JValue.jstr s) (hs : s ≠ "")
    (hprem : req.isPremium.truthy = true)
    (hroles : ∀ t ∈ (store (userIdOf req.xUserId)).getD [],
      t.role = "user" ∨ t.role = "assistant") :
    (premiumChat true true deepseek gemini store req).dsCalls =
      [identityPin :: histUser store (userIdOf req.xUserId) s] ∧
    (∀ e, deepseek (deepseekMessages (histUser store (userIdOf req.xUserId) s)) =
        Except.error e →
      (premiumChat true true deepseek gemini store req).gmCalls =
        [promptOf (histUser store (userIdOf req.xUserId) s)]) := by
  have htru : (JValue.jstr s).truthy = true := by
    simpa [JValue.truthy] using hs
  have hstr : (JValue.jstr s).isString = true := rfl
  have hroles2 : ∀ t ∈ histUser store (userIdOf req.xUserId) s,
      t.role = "user" ∨ t.role = "assistant" := by
    intro t ht
    unfold histUser appendTurn at ht
    rcases List.mem_append.mp (mem_trim20 ht) with h1 | h1
    · exact hroles t h1
    · left
      rw [List.mem_singleton.mp h1]
  have hshape : deepseekMessages (histUser store (userIdOf req.xUserId) s) =
      identityPin :: histUser store (userIdOf req.xUserId) s := by
    unfold deepseekMessages
    rw [normalizeTurn_map_id _ hroles2]
  simp only [histUser] at hshape
  cases hd : deepseek (deepseekMessages (appendTurn
      ((store (userIdOf req.xUserId)).getD []) ⟨"user", s⟩)) with
  | ok t =>
    refine ⟨?_, ?_⟩
    · simp [premiumChat, hmsg, hprem, htru, hstr, JValue.coerceString, hd, histUser]
      simp [hshape]
    · intro e he
      simp only [histUser] at he
      rw [hd] at he
      exact Except.noConfusion he
  | error e0 =>
    cases hg : gemini (promptOf (appendTurn
        ((store (userIdOf req.xUserId)).getD []) ⟨"user", s⟩)) with
    | ok t =>
      refine ⟨?_, fun e he => ?_⟩
      · simp [premiumChat, hmsg, hprem, htru, hstr, JValue.coerceString, hd, hg,
          histUser]
        simp [hshape]
      · simp [premiumChat, hmsg, hprem, htru, hstr, JValue.coerceString, hd, hg,
          histUser]
    | error e1 =>
      refine ⟨?_, fun e he => ?_⟩
      · simp [premiumChat, hmsg, hprem, htru, hstr, JValue.coerceString, hd, hg,
          histUser]
        simp [hshape]
      · simp [premiumChat, hmsg, hprem, htru, hstr, JValue.coerceString, hd, hg,
          histUser]

theorem c6_provider_payloads_witness :
    (premiumChat true true (fun _ => Except.error "ds down")
      (fun _ => Except.ok "gm text") emptyStore
      ⟨none, JValue.jstr "hi", JValue.jbool true⟩).dsCalls =
      [[identityPin, ⟨"user", "hi"⟩]] ∧
    (premiumChat true true (fun _ => Except.error "ds down")
      (fun _ => Except.ok "gm text") emptyStore
      ⟨none, JValue.jstr "hi", JValue.jbool true⟩).gmCalls = ["user: hi"] := by
  have h := c6_provider_payloads (fun _ => Except.error "ds down")
    (fun _ => Except.ok "gm text") emptyStore
    ⟨none, JValue.jstr "hi", JValue.jbool true⟩ "hi"
    rfl (by decide) rfl (by intro t ht; exact absurd ht (by simp [emptyStore]))
  exact ⟨h.1, h.2 "ds down" rfl⟩

/-! ## C10 -/

/-- C10 (counterexample): a `/api/chat/vision` request with one image
file but a numeric `message` (truthy, not a string) is not handled by the
skipped validation at all — `message.trim()` raises a TypeError, the
request returns 500 even though the model call would have succeeded, and
no user turn is recorded (only the lazily created empty history). -/
theorem c10_vision_counterexample :
    (visionChat true (fun _ => Except.ok "ok") (fun _ => Except.ok "g") emptyStore
      ⟨none, JValue.jnum 1, JValue.jundefined, some [⟨"image/png", "AAAA"⟩]⟩).response =
      ⟨500, Body.error "Backend error: message.trim is not a function"⟩ ∧
    (visionChat true (fun _ => Except.ok "ok") (fun _ => Except.ok "g") emptyStore
      ⟨none, JValue.jnum 1, JValue.jundefined, some [⟨"image/png", "AAAA"⟩]⟩).store
      "default" = some [] := by decide

/-- C10 (amended): on a `/api/chat/vision` request carrying at least one
image file the message validation is skipped, so the response is never a
400; and when `message` is not a truthy non-string (it is absent, falsy,
or a string) and the vision model call succeeds, the recorded user turn
is the JS string coercion of `message` concatenated with the file-count
suffix. A truthy non-string `message` instead raises a TypeError at
`message.trim()`, surfacing as a 500 with no turn recorded. -/
theorem c10_vision_amended (geminiVision : List Part → Except String String)
    (gemini : String → Except String String) (store : Store) (req : VisionRequest)
    (himg : (req.files.isSome && (req.files.getD []).any
      (fun f => startsWithStr f.type "image/")) = true) :
    (visionChat true geminiVision gemini store req).response.status ≠ 400 ∧
    (∀ text, (req.message.truthy && !req.message.isString) = false →
      geminiVision (visionParts req.message (req.files.getD [])) = Except.ok text →
      (visionChat true geminiVision gemini store req).store (userIdOf req.xUserId) =
        some (trim20 (((store (userIdOf req.xUserId)).getD []) ++
          [⟨"user", req.message.coerceString ++ (" [with " ++
              toString (req.files.getD []).length ++ " file(s)]")⟩,
            ⟨"assistant", text⟩]))) := by
  have hfl : 0 < (req.files.getD []).length := by
    have himg2 := himg
    simp only [Bool.and_eq_true] at himg2
    rcases List.any_eq_true.mp himg2.2 with ⟨f, hf, _⟩
    exact List.length_pos.mpr (List.ne_nil_of_mem hf)
  constructor
  · cases hthrow : req.message.truthy && !req.message.isString with
    | true => simp [visionChat, himg, hthrow]
    | false =>
      cases hgv : geminiVision (visionParts req.message (req.files.getD [])) with
      | ok t => simp [visionChat, himg, hthrow, hgv]
      | error e => simp [visionChat, himg, hthrow, hgv]
  · intro text hcond hgv
    simp [visionChat, himg, hcond, hgv, Store.set, hfl]

theorem c10_vision_amended_witness :
    (visionChat true (fun _ => Except.ok "ok") (fun _ => Except.ok "g") emptyStore
      ⟨none, JValue.jstr "hi", JValue.jundefined, some [⟨"image/png", "AAAA"⟩]⟩).response.status ≠
      400 ∧
    (visionChat true (fun _ => Except.ok "ok") (fun _ => Except.ok "g") emptyStore
      ⟨none, JValue.jstr "hi", JValue.jundefined, some [⟨"image/png", "AAAA"⟩]⟩).store
      "default" =
      some [⟨"user", "hi [with 1 file(s)]"⟩, ⟨"assistant", "ok"⟩] := by
  have h := c10_vision_amended (fun _ => Except.ok "ok") (fun _ => Except.ok "g")
    emptyStore ⟨none, JValue.jstr "hi", JValue.jundefined, some [⟨"image/png", "AAAA"⟩]⟩
    (by decide)
  refine ⟨h.1, ?_⟩
  have h2 := h.2 "ok" rfl rfl
  simpa [trim20, emptyStore, userIdOf] using h2

end AskBot
